import Mathlib

/-!
Verification of the fitness tracker's data-access layer.

This file gives a shallow embedding of the two storage backends of the
repository — the JSON file store (`data_manager.py` and
`optimized_data_manager.py`) and the relational store (`database.py` and
`optimized_database.py`) — and proves or refutes the frozen claims about them.

Modelling conventions:
* timestamps are integer minutes (`timedelta(days = d)` is `d * minutesPerDay`);
* the parsed contents of a JSON file, or the rows of a table, are a `List`;
* `uuid.uuid4()` and `bcrypt.gensalt()` are oracles passed as extra arguments;
* pandas `NaN` cells are `Option.none`;
* exceptions that the source catches and converts to `False` are the
  corresponding error branches of the embedded functions.
-/

/-- Timestamps are integer minutes; `timedelta(days = d)` is `d * minutesPerDay`. -/
def minutesPerDay : Int := 1440

/-- An activity record as stored in the activities JSON file (one pandas row).
`date` is always present: both `add_activity` implementations raise before
writing when the date key is missing, and `load_activities` discards frames
without a parsable date column.  Every other column may be absent (`NaN`). -/
structure Activity where
  id : String
  type : Option String
  duration : Option Int
  intensity : Option String
  date : Int
  description : Option String
  adaptation : Option String
deriving DecidableEq, Repr

/-- The caller-supplied `activity_data` dict: every key may be absent. -/
structure ActivityData where
  type : Option String
  duration : Option Int
  intensity : Option String
  date : Option Int
  description : Option String
  adaptation : Option String
deriving DecidableEq, Repr

/-- The row appended by `add_activity`: the input dict plus the freshly drawn id
(`activity_data['id'] = str(uuid.uuid4())`), the date coerced to a datetime. -/
def mkRecord (d : ActivityData) (newId : String) (dt : Int) : Activity :=
  ⟨newId, d.type, d.duration, d.intensity, dt, d.description, d.adaptation⟩

/-- The descending-date order of `df.sort_values('date', ascending=False)`. -/
def Activity.dateGe (a b : Activity) : Prop := b.date ≤ a.date

instance : DecidableRel Activity.dateGe :=
  fun a b => inferInstanceAs (Decidable (b.date ≤ a.date))

instance : IsTotal Activity Activity.dateGe := ⟨fun a b => le_total b.date a.date⟩

instance : IsTrans Activity Activity.dateGe := ⟨fun _ _ _ hab hbc => le_trans hbc hab⟩

/-- Model of `df.sort_values('date', ascending=False)` on the activities frame. -/
def sortActivitiesDesc (l : List Activity) : List Activity :=
  List.insertionSort Activity.dateGe l

/-- Replace the first element satisfying `p` by its image under `f`; this is
`df.at[activity_index[0], ...] = ...` in pandas and `.first()` followed by field
assignments in SQLAlchemy. -/
def listUpdateFirst {α : Type} (l : List α) (p : α → Bool) (f : α → α) : List α :=
  match l with
  | [] => []
  | x :: xs => if p x then f x :: xs else x :: listUpdateFirst xs p f

/-- Remove the first element satisfying `p` (`session.delete` of a `.first()` row). -/
def listRemoveFirst {α : Type} (l : List α) (p : α → Bool) : List α :=
  match l with
  | [] => []
  | x :: xs => if p x then xs else x :: listRemoveFirst xs p

namespace DataManager

/-- Model of `load_activities` (data_manager.py, lines 39 to 99): parse the activities file
and sort newest first.  The pure model takes the parsed file contents as input;
the mtime-keyed cache only short-circuits disk reads and never changes the
result, so it does not appear here. -/
def load_activities (store : List Activity) : List Activity :=
  sortActivitiesDesc store

/-- Model of `add_activity` (data_manager.py, lines 122 to 142): draw a uuid (the `newId`
oracle), coerce the date, append to the loaded frame, save.  No validation is
performed.  A missing `date` key raises `KeyError`, caught and turned into
`False` with nothing written. -/
def add_activity (store : List Activity) (d : ActivityData) (newId : String) :
    Bool × List Activity :=
  match d.date with
  | none => (false, store)
  | some dt => (true, load_activities store ++ [mkRecord d newId dt])

/-- Model of `delete_activity` (data_manager.py, lines 144 to 152): filter the frame and
save unconditionally, so the call reports `True` even when the id is absent. -/
def delete_activity (store : List Activity) (aid : String) : Bool × List Activity :=
  (true, (load_activities store).filter (fun a => a.id ≠ aid))

/-- Model of `update_activity` (data_manager.py, lines 154 to 177): fail when the id is not
found; otherwise overwrite the mutable columns of the first matching row and
save.  The four required keys are subscripted, so a missing one raises before
the save and leaves the file unchanged. -/
def update_activity (store : List Activity) (aid : String) (d : ActivityData) :
    Bool × List Activity :=
  let df := load_activities store
  if df.all (fun a => a.id ≠ aid) then (false, store)
  else
    match d.type, d.duration, d.intensity, d.date with
    | some t, some dur, some i, some dt =>
        (true, listUpdateFirst df (fun a => a.id = aid) (fun a =>
          { a with type := some t, duration := some dur, intensity := some i, date := dt,
                   description := some (d.description.getD ""),
                   adaptation := some (d.adaptation.getD "") }))
    | _, _, _, _ => (false, store)

/-- Model of `get_activities_for_period` (data_manager.py, lines 179 to 205), with
`datetime.now()` passed explicitly as `now`. -/
def get_activities_for_period (store : List Activity) (now : Int) (period : String) :
    List Activity :=
  let df := load_activities store
  if df.isEmpty then df
  else if period = "All time" then df
  else
    let start? : Option Int :=
      if period = "Week" then some (now - 7 * minutesPerDay)
      else if period = "Month" then some (now - 30 * minutesPerDay)
      else if period = "Season" then some (now - 90 * minutesPerDay)
      else none
    match start? with
    | none => df
    | some s => df.filter (fun a => s ≤ a.date)

end DataManager

namespace OptimizedDataManager

/-- Model of `load_activities` (optimized_data_manager.py, lines 92 to 126): same parsed
result as the plain manager, newest first. -/
def load_activities (store : List Activity) : List Activity :=
  sortActivitiesDesc store

/-- Model of `_validate_activity_data` (optimized_data_manager.py, lines 183 to 203):
required keys present, duration within `[1, 1440]`, description (defaulting to
the empty string) at most 500 characters. -/
def validate_activity_data (d : ActivityData) : Bool :=
  (d.type.isSome && d.duration.isSome && d.intensity.isSome && d.date.isSome) &&
  (match d.duration with
   | some n => decide (1 ≤ n) && decide (n ≤ 1440)
   | none => false) &&
  decide ((d.description.getD "").length ≤ 500)

/-- Model of `add_activity` (optimized_data_manager.py, lines 159 to 181): validate first —
returning `False` before touching the file on invalid input — then draw the
uuid, append and save. -/
def add_activity (store : List Activity) (d : ActivityData) (newId : String) :
    Bool × List Activity :=
  if !validate_activity_data d then (false, store)
  else
    match d.date with
    | none => (false, store)
    | some dt => (true, load_activities store ++ [mkRecord d newId dt])

/-- Model of `delete_activity` (optimized_data_manager.py, lines 205 to 217): fail when the
frame is empty or the id is absent, otherwise filter it out and save. -/
def delete_activity (store : List Activity) (aid : String) : Bool × List Activity :=
  let df := load_activities store
  if df.isEmpty || !(df.any (fun a => a.id = aid)) then (false, store)
  else (true, df.filter (fun a => a.id ≠ aid))

/-- Model of `get_activities_for_period` (optimized_data_manager.py, lines 219 to 243). -/
def get_activities_for_period (store : List Activity) (now : Int) (period : String) :
    List Activity :=
  let df := load_activities store
  if df.isEmpty || period = "All time" then df
  else
    let days? : Option Int :=
      if period = "Week" then some 7
      else if period = "Month" then some 30
      else if period = "Season" then some 90
      else none
    match days? with
    | none => df
    | some dys => df.filter (fun a => now - dys * minutesPerDay ≤ a.date)

end OptimizedDataManager

/-- A file system: an association list from path to full file contents. -/
abbrev FS := List (String × String)

/-- Contents of the file at `p`, when it exists. -/
def fsGet (fs : FS) (p : String) : Option String :=
  (fs.find? (fun e => e.1 = p)).map (fun e => e.2)

/-- Write the full contents `c` to path `p`. -/
def fsSet (fs : FS) (p c : String) : FS :=
  (p, c) :: fs.filter (fun e => e.1 ≠ p)

/-- Model of `os.remove p`. -/
def fsRemove (fs : FS) (p : String) : FS :=
  fs.filter (fun e => e.1 ≠ p)

/-- Model of `DATA_PATHS['activities']`. -/
def activitiesPath : String := "data/activities.json"

/-- Model of `f"{self.activities_file}.tmp"`. -/
def activitiesTmpPath : String := "data/activities.json.tmp"

/-- Serialization of one record inside `json.dump` of the frame.  The exact byte
format is irrelevant to every claim (only equality of whole-file contents is
ever stated), so a simple unambiguous rendering stands in for the JSON text. -/
def serializeActivity (a : Activity) : String :=
  a.id ++ ";" ++ toString a.type ++ ";" ++ toString a.duration ++ ";" ++
    toString a.intensity ++ ";" ++ toString a.date ++ ";" ++
    toString a.description ++ ";" ++ toString a.adaptation

/-- Model of `json.dump(activities_list, f, indent=2)` of the whole frame. -/
def serializeActivities (l : List Activity) : String :=
  String.intercalate "\n" (l.map serializeActivity)

/-- File-store state: the on-disk file system plus the in-memory activities
cache (`self._activities_cache`). -/
structure FileStoreState where
  fs : FS
  cache : Option (List Activity)
deriving DecidableEq, Repr

namespace DataManager

/-- Model of `save_activities` (data_manager.py, lines 101 to 120): opens the TARGET file
itself for writing and dumps the records into it in place.  `failure = none`
models a dump that completes; `failure = some partialBytes` models an I/O error
mid-dump, which leaves the target holding the partially written bytes and is
caught and turned into `False` with the cache untouched.  The final component
lists the file-system states a concurrent reader could observe. -/
def save_activities (s : FileStoreState) (df : List Activity) (failure : Option String) :
    Bool × FileStoreState × List FS :=
  match failure with
  | none =>
      let fs1 := fsSet s.fs activitiesPath (serializeActivities df)
      (true, ⟨fs1, some df⟩, [fs1])
  | some p =>
      let fs1 := fsSet s.fs activitiesPath p
      (false, ⟨fs1, s.cache⟩, [fs1])

end DataManager

namespace OptimizedDataManager

/-- Model of `save_activities` (optimized_data_manager.py, lines 128 to 157): dump into
`activities.json.tmp`, then `os.replace` it over the target in one atomic step.
On a failed dump (`failure = some partialBytes`) the handler removes the temp
file and returns `False`; the cache is updated only on success.  The final
component lists the file-system states a concurrent reader could observe. -/
def save_activities (s : FileStoreState) (df : List Activity) (failure : Option String) :
    Bool × FileStoreState × List FS :=
  match failure with
  | none =>
      let fs1 := fsSet s.fs activitiesTmpPath (serializeActivities df)
      let fs2 := fsSet (fsRemove fs1 activitiesTmpPath) activitiesPath (serializeActivities df)
      (true, ⟨fs2, some df⟩, [fs1, fs2])
  | some p =>
      let fs1 := fsSet s.fs activitiesTmpPath p
      let fs2 := fsRemove fs1 activitiesTmpPath
      (false, ⟨fs2, s.cache⟩, [fs1, fs2])

end OptimizedDataManager

/-- A stored password credential.  `bcryptHash salt pw` models
`bcrypt.hashpw(pw.encode(), bcrypt.gensalt())` with the random salt supplied as
an oracle; the `plaintext` constructor exists only so that "the plaintext
password is never stored" is statable. -/
inductive StoredCredential where
  | plaintext (pw : String)
  | bcryptHash (salt : String) (pw : String)
deriving DecidableEq, Repr

/-- A row of the `users` table.  Presentation-only columns (language, theme,
remember token, created_at, weight goal) are omitted; no claim mentions them. -/
structure DBUser where
  id : Nat
  username : String
  email : String
  password_hash : StoredCredential
deriving DecidableEq, Repr

/-- A row of the `activities` table (`created_at` omitted, no claim touches it). -/
structure DBActivity where
  id : Nat
  user_id : Nat
  type : String
  duration : Int
  intensity : String
  date : Int
  description : String
  adaptation : String
deriving DecidableEq, Repr

/-- A row of the `weight_entries` table.  Weights are modelled as rationals:
no claim computes with them, they are only stored and compared. -/
structure DBWeightEntry where
  id : Nat
  user_id : Nat
  weight : Rat
  date : Int
deriving DecidableEq, Repr

/-- The relational store: the four tables plus the `users` autoincrement
counter (the only table any claim creates rows in). -/
structure DBState where
  users : List DBUser
  activities : List DBActivity
  weight_entries : List DBWeightEntry
  friendships : List (Nat × Nat)
  next_user_id : Nat
deriving DecidableEq, Repr

/-- Insert a row into the `friendships` association table.  Its composite
primary key `(user_id, friend_id)` makes the table a set of pairs. -/
def insertPair (fr : List (Nat × Nat)) (pr : Nat × Nat) : List (Nat × Nat) :=
  if pr ∈ fr then fr else fr ++ [pr]

/-- The `start_date` cutoff chain shared verbatim by `get_user_activities` in
database.py (lines 221 to 233) and optimized_database.py (lines 277 to 290):
`now - timedelta(days = w)` for the three known periods, `None` otherwise. -/
def periodStart (period : String) (now : Int) : Option Int :=
  if period = "Week" then some (now - 7 * minutesPerDay)
  else if period = "Month" then some (now - 30 * minutesPerDay)
  else if period = "Season" then some (now - 90 * minutesPerDay)
  else none

/-- The descending-date order of `order_by(Activity.date.desc())`. -/
def DBActivity.dateGe (a b : DBActivity) : Prop := b.date ≤ a.date

instance : DecidableRel DBActivity.dateGe :=
  fun a b => inferInstanceAs (Decidable (b.date ≤ a.date))

instance : IsTotal DBActivity DBActivity.dateGe := ⟨fun a b => le_total b.date a.date⟩

instance : IsTrans DBActivity DBActivity.dateGe := ⟨fun _ _ _ hab hbc => le_trans hbc hab⟩

/-- Model of `order_by(Activity.date.desc())`. -/
def sortDBActivitiesDesc (l : List DBActivity) : List DBActivity :=
  List.insertionSort DBActivity.dateGe l

/-- The activities query before ordering and limiting, shared by both database
modules: scope to the owning user, then apply the optional period cutoff
(`query.filter(Activity.user_id == user_id)` plus
`query.filter(Activity.date >= start_date)`). -/
def userPeriodActivities (db : DBState) (user_id : Nat) (period : String) (now : Int) :
    List DBActivity :=
  let base := db.activities.filter (fun a => a.user_id = user_id)
  if period = "All time" then base
  else
    match periodStart period now with
    | some s => base.filter (fun a => s ≤ a.date)
    | none => base

namespace DatabaseManager

/-- Model of `create_user` (database.py, lines 115 to 140): reject when any existing row
matches the username or the email, otherwise hash the password with a fresh
salt and insert.  No length bounds are checked. -/
def create_user (db : DBState) (username email password salt : String) :
    Option Nat × String × DBState :=
  if db.users.any (fun u => u.username = username || u.email = email) then
    (none, "Username or email already exists", db)
  else
    (some db.next_user_id, "User created successfully",
      { db with
          users := db.users ++ [⟨db.next_user_id, username, email,
            StoredCredential.bcryptHash salt password⟩],
          next_user_id := db.next_user_id + 1 })

/-- Model of `update_weight_entry` (database.py, lines 343 to 362): the query filters by
entry id ONLY — the function takes no user and performs no ownership check —
then updates the first matching row. -/
def update_weight_entry (db : DBState) (entry_id : Nat) (weight : Rat) (date : Int) :
    Bool × DBState :=
  if db.weight_entries.any (fun e => e.id = entry_id) then
    let updated := listUpdateFirst db.weight_entries (fun e => e.id = entry_id)
      (fun e => { e with weight := weight, date := date })
    (true, { db with weight_entries := updated })
  else (false, db)

/-- Model of `delete_weight_entry` (database.py, lines 364 to 382): again filtered by
entry id only, no ownership check. -/
def delete_weight_entry (db : DBState) (entry_id : Nat) : Bool × DBState :=
  if db.weight_entries.any (fun e => e.id = entry_id) then
    let remaining := listRemoveFirst db.weight_entries (fun e => e.id = entry_id)
    (true, { db with weight_entries := remaining })
  else (false, db)

/-- Model of `update_activity` (database.py, lines 289 to 314): scoped by BOTH activity id
and owning user id; on a hit the mutable columns are overwritten; a missing
required key raises mid-update and the transaction rolls back to `False`. -/
def update_activity (db : DBState) (user_id activity_id : Nat) (d : ActivityData) :
    Bool × DBState :=
  if db.activities.any (fun a => a.id = activity_id ∧ a.user_id = user_id) then
    match d.type, d.duration, d.intensity, d.date with
    | some t, some dur, some i, some dt =>
        let updated := listUpdateFirst db.activities
          (fun a => a.id = activity_id ∧ a.user_id = user_id)
          (fun a => { a with type := t, duration := dur, intensity := i, date := dt,
                             description := d.description.getD "",
                             adaptation := d.adaptation.getD "" })
        (true, { db with activities := updated })
    | _, _, _, _ => (false, db)
  else (false, db)

/-- Model of `get_user_activities` (database.py, lines 215 to 242): the scoped,
period-filtered query, newest first, hard-capped at 1000 rows
(`.order_by(Activity.date.desc()).limit(1000)`). -/
def get_user_activities (db : DBState) (user_id : Nat) (period : String) (now : Int) :
    List DBActivity :=
  (sortDBActivitiesDesc (userPeriodActivities db user_id period now)).take 1000

/-- Model of `add_friend` (database.py, lines 192 to 213).  `user.friends.append(friend)`
on the self-referential `back_populates` relation populates both directions, so
both ordered pairs land in the association table.  There is NO self-friendship
check, and when the acting user id does not exist the code skips the append and
still commits and reports success. -/
def add_friend (db : DBState) (user_id : Nat) (friend_username : String) :
    Bool × String × DBState :=
  match db.users.find? (fun u => u.username = friend_username) with
  | none => (false, "User not found", db)
  | some friend =>
      match db.users.find? (fun u => u.id = user_id) with
      | some user =>
          if (user.id, friend.id) ∈ db.friendships then (false, "Already friends", db)
          else
            let fr2 := insertPair (insertPair db.friendships (user.id, friend.id))
              (friend.id, user.id)
            (true, "Friend added successfully", { db with friendships := fr2 })
      | none => (true, "Friend added successfully", db)

end DatabaseManager

namespace OptimizedDatabaseManager

/-- Model of `create_user` (optimized_database.py, lines 139 to 175): username length
bounds from `VALIDATION_RULES`, then the duplicate check distinguishing
username from email, then `User.set_password`, which raises `ValueError` for a
password shorter than 6 characters before the row is added. -/
def create_user (db : DBState) (username email password salt : String) :
    Option Nat × String × DBState :=
  if username.length < 3 then
    (none, "Username must be at least 3 characters", db)
  else if 50 < username.length then
    (none, "Username must be less than 50 characters", db)
  else
    match db.users.find? (fun u => u.username = username || u.email = email) with
    | some existing =>
        if existing.username = username then (none, "Username already exists", db)
        else (none, "Email already exists", db)
    | none =>
        if password.length < 6 then
          (none, "Password must be at least 6 characters", db)
        else
          (some db.next_user_id, "User created successfully",
            { db with
                users := db.users ++ [⟨db.next_user_id, username, email,
                  StoredCredential.bcryptHash salt password⟩],
                next_user_id := db.next_user_id + 1 })

/-- Model of `delete_weight_entry` (optimized_database.py, lines 357 to 373): scoped by
both entry id and owning user id; a miss on either returns `False`. -/
def delete_weight_entry (db : DBState) (user_id entry_id : Nat) : Bool × DBState :=
  if db.weight_entries.any (fun e => e.id = entry_id ∧ e.user_id = user_id) then
    let remaining := listRemoveFirst db.weight_entries
      (fun e => e.id = entry_id ∧ e.user_id = user_id)
    (true, { db with weight_entries := remaining })
  else (false, db)

/-- Model of `add_friend` (optimized_database.py, lines 375 to 402): reject an unknown
username, self-friendship, an unknown acting user, and an existing friendship;
otherwise append the relation in both directions. -/
def add_friend (db : DBState) (user_id : Nat) (friend_username : String) :
    Bool × String × DBState :=
  match db.users.find? (fun u => u.username = friend_username) with
  | none => (false, "User not found", db)
  | some friend =>
      if friend.id = user_id then (false, "Cannot add yourself as friend", db)
      else
        match db.users.find? (fun u => u.id = user_id) with
        | none => (false, "User not found", db)
        | some user =>
            if (user.id, friend.id) ∈ db.friendships then (false, "Already friends", db)
            else
              let fr2 := insertPair (insertPair db.friendships (user.id, friend.id))
                (friend.id, user.id)
              (true, "Friend added successfully", { db with friendships := fr2 })

/-- Model of `get_user_friends` (optimized_database.py, lines 404 to 411): the users
reachable through an association row whose left component is this user. -/
def get_user_friends (db : DBState) (user_id : Nat) : List DBUser :=
  match db.users.find? (fun u => u.id = user_id) with
  | none => []
  | some user => db.users.filter (fun u => (user.id, u.id) ∈ db.friendships)

/-- Model of `query.limit(limit or 1000)`: a missing — or zero, Python falsiness — limit
becomes 1000. -/
def effectiveLimit : Option Nat → Nat
  | none => 1000
  | some l => if l = 0 then 1000 else l

/-- Model of `get_user_activities` (optimized_database.py, lines 269 to 301): same query
as the plain manager, with a caller-supplied limit defaulting to 1000. -/
def get_user_activities (db : DBState) (user_id : Nat) (period : String) (now : Int)
    (limit : Option Nat) : List DBActivity :=
  (sortDBActivitiesDesc (userPeriodActivities db user_id period now)).take
    (effectiveLimit limit)

end OptimizedDatabaseManager

/-! ### Helper lemmas -/

theorem mem_sortActivitiesDesc {a : Activity} {l : List Activity} :
    a ∈ sortActivitiesDesc l ↔ a ∈ l := by
  simp [sortActivitiesDesc]

theorem sortActivitiesDesc_eq_nil {l : List Activity} :
    sortActivitiesDesc l = [] ↔ l = [] := by
  constructor
  · intro h
    have hp : List.Perm (sortActivitiesDesc l) l := List.perm_insertionSort Activity.dateGe l
    rw [h] at hp
    exact hp.symm.eq_nil
  · rintro rfl
    rfl

theorem mem_sortDBActivitiesDesc {a : DBActivity} {l : List DBActivity} :
    a ∈ sortDBActivitiesDesc l ↔ a ∈ l := by
  simp [sortDBActivitiesDesc]


theorem listUpdateFirst_decomp {α : Type} (l : List α) (p : α → Bool) (f : α → α)
    (h : ∃ x ∈ l, p x = true) :
    ∃ l1 x l2, l = l1 ++ x :: l2 ∧ p x = true ∧ (∀ y ∈ l1, p y = false) ∧
      listUpdateFirst l p f = l1 ++ f x :: l2 := by
  induction l with
  | nil => simp at h
  | cons a xs ih =>
      by_cases hp : p a = true
      · exact ⟨[], a, xs, rfl, hp, by simp, by simp [listUpdateFirst, hp]⟩
      · obtain ⟨x, hx, hpx⟩ := h
        rcases List.mem_cons.mp hx with rfl | hx
        · exact absurd hpx hp
        · obtain ⟨l1, x₀, l2, hdec, hpx₀, hl1, heq⟩ := ih ⟨x, hx, hpx⟩
          refine ⟨a :: l1, x₀, l2, by simp [hdec], hpx₀, ?_, ?_⟩
          · intro y hy
            rcases List.mem_cons.mp hy with rfl | hy
            · exact Bool.eq_false_iff.mpr hp
            · exact hl1 y hy
          · simp [listUpdateFirst, hp, heq]

theorem find?_filter_ne (fs : FS) (p q : String) (h : q ≠ p) :
    (fs.filter (fun e => e.1 ≠ p)).find? (fun e => e.1 = q) =
      fs.find? (fun e => e.1 = q) := by
  induction fs with
  | nil => rfl
  | cons kv rest ih =>
      by_cases hk : kv.1 = p
      · have hfil : (kv :: rest).filter (fun e => decide (e.1 ≠ p)) =
            rest.filter (fun e => decide (e.1 ≠ p)) := by
          simp [List.filter_cons, hk]
        have hq2 : ¬ ((fun e : String × String => decide (e.1 = q)) kv = true) := by
          simp only [decide_eq_true_eq, hk]
          exact fun hq => h hq.symm
        rw [hfil, ih]
        exact (List.find?_cons_of_neg rest hq2).symm
      · have hfil : (kv :: rest).filter (fun e => decide (e.1 ≠ p)) =
            kv :: rest.filter (fun e => decide (e.1 ≠ p)) := by
          simp [List.filter_cons, hk]
        rw [hfil]
        by_cases hq : kv.1 = q
        · have h1 : List.find? (fun e => decide (e.1 = q))
              (kv :: rest.filter (fun e => decide (e.1 ≠ p))) = some kv :=
            List.find?_cons_of_pos _ (by simp [hq])
          have h2 : List.find? (fun e => decide (e.1 = q)) (kv :: rest) = some kv :=
            List.find?_cons_of_pos _ (by simp [hq])
          rw [h1, h2]
        · have h1 : List.find? (fun e => decide (e.1 = q))
              (kv :: rest.filter (fun e => decide (e.1 ≠ p))) =
              List.find? (fun e => decide (e.1 = q)) (rest.filter (fun e => decide (e.1 ≠ p))) :=
            List.find?_cons_of_neg _ (by simp [hq])
          have h2 : List.find? (fun e => decide (e.1 = q)) (kv :: rest) =
              List.find? (fun e => decide (e.1 = q)) rest :=
            List.find?_cons_of_neg _ (by simp [hq])
          rw [h1, h2]
          exact ih

theorem fsGet_fsSet_self (fs : FS) (p c : String) : fsGet (fsSet fs p c) p = some c := by
  simp [fsGet, fsSet, List.find?]

theorem fsGet_fsSet_ne (fs : FS) (p c q : String) (h : q ≠ p) :
    fsGet (fsSet fs p c) q = fsGet fs q := by
  have hq2 : ¬ ((fun e : String × String => decide (e.1 = q)) (p, c) = true) := by
    simp only [decide_eq_true_eq]
    exact fun hq => h hq.symm
  simp only [fsGet, fsSet]
  have h1 : List.find? (fun e => decide (e.1 = q))
      ((p, c) :: fs.filter (fun e => decide (e.1 ≠ p))) =
      List.find? (fun e => decide (e.1 = q)) (fs.filter (fun e => decide (e.1 ≠ p))) :=
    List.find?_cons_of_neg _ hq2
  rw [h1, find?_filter_ne fs p q h]

theorem fsGet_fsRemove_self (fs : FS) (p : String) : fsGet (fsRemove fs p) p = none := by
  simp only [fsGet, fsRemove]
  rw [List.find?_eq_none.mpr]
  · rfl
  · intro e he
    have := (List.mem_filter.mp he).2
    simpa using this

theorem fsGet_fsRemove_ne (fs : FS) (p q : String) (h : q ≠ p) :
    fsGet (fsRemove fs p) q = fsGet fs q := by
  simp only [fsGet, fsRemove]
  rw [find?_filter_ne fs p q h]

theorem find?_key_eq {α β : Type} [DecidableEq β] (l : List α) (f : α → β) (x : α) (b : β)
    (hx : x ∈ l) (hfx : f x = b) (hnd : (l.map f).Nodup) :
    l.find? (fun y => f y = b) = some x := by
  induction l with
  | nil => simp at hx
  | cons a rest ih =>
      rcases List.mem_cons.mp hx with rfl | hx
      · simp [List.find?, hfx]
      · have hna : f a ≠ b := by
          intro hab
          have : f a ∈ rest.map f := by
            rw [hab, ← hfx]; exact List.mem_map_of_mem f hx
          exact (List.nodup_cons.mp hnd).1 this
        have hstep : List.find? (fun y => decide (f y = b)) (a :: rest) =
            List.find? (fun y => decide (f y = b)) rest :=
          List.find?_cons_of_neg _ (by simp [hna])
        rw [hstep]
        exact ih hx (List.nodup_cons.mp hnd).2

/-! ### C1 -/

/-- C1, counterexample: the claim quantifies over `add_activity` including
`DataManager.add_activity` (data_manager.py, lines 122 to 142), which performs
no validation at all.  With every required field present but `duration = 0`
(outside `[1, 1440]`) it reports success and appends a record, instead of
returning false and leaving the stored collection unchanged. -/
theorem C1_counterexample :
    (DataManager.add_activity []
      ⟨some "Running", some 0, some "Low", some 0, some "", some ""⟩ "id-1").1 = true ∧
    (DataManager.add_activity []
      ⟨some "Running", some 0, some "Low", some 0, some "", some ""⟩ "id-1").2 ≠ [] := by
  decide

/-- C1, amended: for `OptimizedDataManager.add_activity` the claim holds — an
input with a duration outside `[1, 1440]`, a description longer than 500
characters, or a missing required field `{type, duration, intensity, date}` is
rejected before any persistence attempt: the call returns false and the stored
collection is untouched.  (`DataManager.add_activity` performs no validation.) -/
theorem C1_validation_rejects (store : List Activity) (d : ActivityData) (newId : String)
    (h : (∃ n, d.duration = some n ∧ (n < 1 ∨ 1440 < n)) ∨
         500 < (d.description.getD "").length ∨
         d.type = none ∨ d.duration = none ∨ d.intensity = none ∨ d.date = none) :
    OptimizedDataManager.add_activity store d newId = (false, store) := by
  have hv : OptimizedDataManager.validate_activity_data d = false := by
    rcases h with ⟨n, hdur, hn⟩ | hlen | ht | hd | hi | hdt
    · rcases hn with h1 | h2
      · have hb : decide (1 ≤ n) = false := decide_eq_false (by omega)
        simp [OptimizedDataManager.validate_activity_data, hdur, hb]
      · have hb : decide (n ≤ 1440) = false := decide_eq_false (by omega)
        simp [OptimizedDataManager.validate_activity_data, hdur, hb]
    · have hb : decide ((d.description.getD "").length ≤ 500) = false :=
        decide_eq_false (by omega)
      simp [OptimizedDataManager.validate_activity_data, hb]
    · simp [OptimizedDataManager.validate_activity_data, ht]
    · simp [OptimizedDataManager.validate_activity_data, hd]
    · simp [OptimizedDataManager.validate_activity_data, hi]
    · simp [OptimizedDataManager.validate_activity_data, hdt]
  simp [OptimizedDataManager.add_activity, hv]

/-- C1, witness: the amended theorem applied to the zero-duration input. -/
theorem C1_witness :
    ((∃ n, (⟨some "Running", some 0, some "Low", some 0, some "", some ""⟩ :
        ActivityData).duration = some n ∧ (n < 1 ∨ 1440 < n)) ∨
      500 < ((⟨some "Running", some 0, some "Low", some 0, some "", some ""⟩ :
        ActivityData).description.getD "").length ∨
      (⟨some "Running", some 0, some "Low", some 0, some "", some ""⟩ :
        ActivityData).type = none ∨
      (⟨some "Running", some 0, some "Low", some 0, some "", some ""⟩ :
        ActivityData).duration = none ∨
      (⟨some "Running", some 0, some "Low", some 0, some "", some ""⟩ :
        ActivityData).intensity = none ∨
      (⟨some "Running", some 0, some "Low", some 0, some "", some ""⟩ :
        ActivityData).date = none) ∧
    OptimizedDataManager.add_activity []
      ⟨some "Running", some 0, some "Low", some 0, some "", some ""⟩ "id-1" = (false, []) :=
  ⟨Or.inl ⟨0, rfl, Or.inl (by decide)⟩,
    C1_validation_rejects [] ⟨some "Running", some 0, some "Low", some 0, some "", some ""⟩
      "id-1" (Or.inl ⟨0, rfl, Or.inl (by decide)⟩)⟩

/-! ### C2 -/

/-- C2: for every valid activity input (duration in `[1, 1440]`, intensity one of
Low, Medium, High, description at most 500 characters), `add_activity` succeeds
and a subsequent `load_activities` returns a record whose type, duration,
intensity, date, description and adaptation equal the input verbatim, plus a
newly assigned id — the uuid oracle `newId`, assumed fresh as uuid4 collisions
are — distinct from every id already in the store. -/
theorem C2_add_then_load_preserves (store : List Activity) (d : ActivityData)
    (newId : String) (dt : Int)
    (ht : d.type.isSome = true) (hi : d.intensity.isSome = true)
    (hdt : d.date = some dt)
    (hdur : ∃ n, d.duration = some n ∧ 1 ≤ n ∧ n ≤ 1440)
    (_hint : d.intensity = some "Low" ∨ d.intensity = some "Medium" ∨
            d.intensity = some "High")
    (hlen : (d.description.getD "").length ≤ 500)
    (hfresh : ∀ a ∈ store, a.id ≠ newId) :
    (OptimizedDataManager.add_activity store d newId).1 = true ∧
    ∃ r ∈ DataManager.load_activities (OptimizedDataManager.add_activity store d newId).2,
      r.id = newId ∧ r.type = d.type ∧ r.duration = d.duration ∧
      r.intensity = d.intensity ∧ r.date = dt ∧ r.description = d.description ∧
      r.adaptation = d.adaptation ∧ ∀ a ∈ store, a.id ≠ r.id := by
  obtain ⟨n, hd, h1, h2⟩ := hdur
  have hv : OptimizedDataManager.validate_activity_data d = true := by
    simp [OptimizedDataManager.validate_activity_data, ht, hi, hdt, hd, h1, h2, hlen]
  have hadd : OptimizedDataManager.add_activity store d newId =
      (true, OptimizedDataManager.load_activities store ++ [mkRecord d newId dt]) := by
    simp [OptimizedDataManager.add_activity, hv, hdt]
  refine ⟨by rw [hadd], mkRecord d newId dt, ?_, rfl, rfl, rfl, rfl, rfl, rfl, rfl, ?_⟩
  · rw [hadd]
    simp only [DataManager.load_activities, mem_sortActivitiesDesc]
    exact List.mem_append_right _ (List.mem_singleton.mpr rfl)
  · intro a ha
    exact hfresh a ha

/-- C2, witness: the theorem applied to a concrete valid input on the empty store. -/
theorem C2_witness :
    (OptimizedDataManager.add_activity []
      ⟨some "Running", some 30, some "Medium", some 5, some "ok", some "Endurance"⟩ "u1").1
      = true ∧
    ∃ r ∈ DataManager.load_activities (OptimizedDataManager.add_activity []
      ⟨some "Running", some 30, some "Medium", some 5, some "ok", some "Endurance"⟩ "u1").2,
      r.id = "u1" ∧
      r.type = (⟨some "Running", some 30, some "Medium", some 5, some "ok",
        some "Endurance"⟩ : ActivityData).type ∧
      r.duration = (⟨some "Running", some 30, some "Medium", some 5, some "ok",
        some "Endurance"⟩ : ActivityData).duration ∧
      r.intensity = (⟨some "Running", some 30, some "Medium", some 5, some "ok",
        some "Endurance"⟩ : ActivityData).intensity ∧
      r.date = 5 ∧
      r.description = (⟨some "Running", some 30, some "Medium", some 5, some "ok",
        some "Endurance"⟩ : ActivityData).description ∧
      r.adaptation = (⟨some "Running", some 30, some "Medium", some 5, some "ok",
        some "Endurance"⟩ : ActivityData).adaptation ∧
      ∀ a ∈ ([] : List Activity), a.id ≠ r.id :=
  C2_add_then_load_preserves []
    ⟨some "Running", some 30, some "Medium", some 5, some "ok", some "Endurance"⟩
    "u1" 5 rfl rfl rfl ⟨30, rfl, by decide, by decide⟩ (Or.inr (Or.inl rfl))
    (by decide) (by intro a ha; cases ha)

/-! ### C3 -/

/-- C3: for every stored collection and fixed deterministic now,
`get_activities_for_period` returns exactly the records with
`date >= now - w days` where w is 7 for Week, 30 for Month, 90 for Season;
"All time" returns every record; any unrecognized period value returns the
collection unfiltered.  Both managers implement the same function. -/
theorem C3_get_activities_for_period (store : List Activity) (now : Int) (a : Activity) :
    (∀ period, DataManager.get_activities_for_period store now period =
        OptimizedDataManager.get_activities_for_period store now period) ∧
    (a ∈ DataManager.get_activities_for_period store now "Week" ↔
      a ∈ store ∧ now - 7 * minutesPerDay ≤ a.date) ∧
    (a ∈ DataManager.get_activities_for_period store now "Month" ↔
      a ∈ store ∧ now - 30 * minutesPerDay ≤ a.date) ∧
    (a ∈ DataManager.get_activities_for_period store now "Season" ↔
      a ∈ store ∧ now - 90 * minutesPerDay ≤ a.date) ∧
    (a ∈ DataManager.get_activities_for_period store now "All time" ↔ a ∈ store) ∧
    (∀ period, period ≠ "Week" → period ≠ "Month" → period ≠ "Season" →
      period ≠ "All time" →
      (a ∈ DataManager.get_activities_for_period store now period ↔ a ∈ store)) := by
  by_cases hnil : store = []
  · subst hnil
    refine ⟨fun period => rfl, ?_, ?_, ?_, ?_, ?_⟩ <;>
      simp [DataManager.get_activities_for_period, DataManager.load_activities,
        sortActivitiesDesc, List.insertionSort]
  · have hdf : (DataManager.load_activities store).isEmpty = false :=
      List.isEmpty_eq_false.mpr (fun h => hnil (sortActivitiesDesc_eq_nil.mp h))
    have hdf2 : (OptimizedDataManager.load_activities store).isEmpty = false := hdf
    have hsd : sortActivitiesDesc store ≠ [] :=
      fun h => hnil (sortActivitiesDesc_eq_nil.mp h)
    refine ⟨?_, ?_, ?_, ?_, ?_, ?_⟩
    · intro period
      by_cases hW : period = "Week"
      · subst hW
        simp [DataManager.get_activities_for_period,
          OptimizedDataManager.get_activities_for_period, hdf, hdf2,
          DataManager.load_activities, OptimizedDataManager.load_activities, hsd]
      · by_cases hM : period = "Month"
        · subst hM
          simp [DataManager.get_activities_for_period,
            OptimizedDataManager.get_activities_for_period, hdf, hdf2,
            DataManager.load_activities, OptimizedDataManager.load_activities, hsd]
        · by_cases hS : period = "Season"
          · subst hS
            simp [DataManager.get_activities_for_period,
              OptimizedDataManager.get_activities_for_period, hdf, hdf2,
              DataManager.load_activities, OptimizedDataManager.load_activities, hsd]
          · by_cases hA : period = "All time"
            · subst hA
              simp [DataManager.get_activities_for_period,
                OptimizedDataManager.get_activities_for_period, hdf, hdf2,
                DataManager.load_activities, OptimizedDataManager.load_activities, hsd]
            · simp [DataManager.get_activities_for_period,
                OptimizedDataManager.get_activities_for_period, hdf, hdf2,
                DataManager.load_activities, OptimizedDataManager.load_activities, hsd,
                hW, hM, hS, hA]
    · simp [DataManager.get_activities_for_period, hdf, List.mem_filter,
        DataManager.load_activities, mem_sortActivitiesDesc, hsd, and_comm]
    · simp [DataManager.get_activities_for_period, hdf, List.mem_filter,
        DataManager.load_activities, mem_sortActivitiesDesc, hsd, and_comm]
    · simp [DataManager.get_activities_for_period, hdf, List.mem_filter,
        DataManager.load_activities, mem_sortActivitiesDesc, hsd, and_comm]
    · simp [DataManager.get_activities_for_period, hdf,
        DataManager.load_activities, mem_sortActivitiesDesc, hsd]
    · intro period hW hM hS hA
      simp [DataManager.get_activities_for_period, hdf, hW, hM, hS, hA,
        DataManager.load_activities, mem_sortActivitiesDesc, hsd]

/-- C3, witness: the unrecognized-period clause applied to a concrete store and
the period string "Year". -/
theorem C3_witness :
    (⟨"a1", some "Run", some 30, some "Low", 0, some "", some ""⟩ : Activity) ∈
      DataManager.get_activities_for_period
        [⟨"a1", some "Run", some 30, some "Low", 0, some "", some ""⟩] 99999 "Year" ↔
    (⟨"a1", some "Run", some 30, some "Low", 0, some "", some ""⟩ : Activity) ∈
      [(⟨"a1", some "Run", some 30, some "Low", 0, some "", some ""⟩ : Activity)] :=
  (C3_get_activities_for_period
      [⟨"a1", some "Run", some 30, some "Low", 0, some "", some ""⟩] 99999
      ⟨"a1", some "Run", some 30, some "Low", 0, some "", some ""⟩).2.2.2.2.2
    "Year" (by decide) (by decide) (by decide) (by decide)

/-! ### C4 -/

/-- C4, counterexample: the claim quantifies over `delete_activity` including
`DataManager.delete_activity` (data_manager.py, lines 144 to 152), which filters
and saves unconditionally.  Deleting an id that is not in the store returns
true (the save result) instead of false. -/
theorem C4_counterexample :
    (⟨"a1", some "Run", some 30, some "Low", 0, some "", some ""⟩ : Activity).id ≠
      "missing" ∧
    DataManager.delete_activity
      [⟨"a1", some "Run", some 30, some "Low", 0, some "", some ""⟩] "missing" =
      (true, [⟨"a1", some "Run", some 30, some "Low", 0, some "", some ""⟩]) := by
  decide

/-- C4, amended: for `OptimizedDataManager.delete_activity` the claim holds — a
missing id fails with no side effects, a present id is removed and exactly the
other records survive, and the second of two deletions of the same id fails
(not found) leaving the once-deleted state unchanged.
(`DataManager.delete_activity` instead returns true for a missing id, saving
the unchanged collection.) -/
theorem C4_delete_activity (store : List Activity) (aid : String) :
    ((∀ a ∈ store, a.id ≠ aid) →
      OptimizedDataManager.delete_activity store aid = (false, store)) ∧
    ((∃ a ∈ store, a.id = aid) →
      (OptimizedDataManager.delete_activity store aid).1 = true ∧
      (∀ x, x ∈ (OptimizedDataManager.delete_activity store aid).2 ↔
        x ∈ store ∧ x.id ≠ aid) ∧
      OptimizedDataManager.delete_activity
          (OptimizedDataManager.delete_activity store aid).2 aid =
        (false, (OptimizedDataManager.delete_activity store aid).2)) := by
  constructor
  · intro habs
    have hany : ((OptimizedDataManager.load_activities store).any
        (fun a => decide (a.id = aid))) = false := by
      rw [List.any_eq_false]
      intro x hx
      simp only [decide_eq_true_eq]
      exact habs x (mem_sortActivitiesDesc.mp hx)
    simp [OptimizedDataManager.delete_activity, hany]
  · intro hex
    obtain ⟨x₀, hx₀, hid₀⟩ := hex
    have hany : ((OptimizedDataManager.load_activities store).any
        (fun a => decide (a.id = aid))) = true := by
      rw [List.any_eq_true]
      exact ⟨x₀, mem_sortActivitiesDesc.mpr hx₀, by simp [hid₀]⟩
    have hne : (OptimizedDataManager.load_activities store).isEmpty = false := by
      rw [List.isEmpty_eq_false]
      intro h
      rw [h] at hany
      simp at hany
    have hdel : OptimizedDataManager.delete_activity store aid =
        (true, (OptimizedDataManager.load_activities store).filter
          (fun a => decide (a.id ≠ aid))) := by
      simp [OptimizedDataManager.delete_activity, hany, hne]
    refine ⟨by rw [hdel], ?_, ?_⟩
    · intro x
      rw [hdel]
      simp [List.mem_filter, OptimizedDataManager.load_activities, mem_sortActivitiesDesc]
    · rw [hdel]
      have hany2 : ((OptimizedDataManager.load_activities
          ((OptimizedDataManager.load_activities store).filter
            (fun a => decide (a.id ≠ aid)))).any (fun a => decide (a.id = aid))) = false := by
        rw [List.any_eq_false]
        intro x hx
        have hx2 := mem_sortActivitiesDesc.mp hx
        have := (List.mem_filter.mp hx2).2
        simpa using this
      simp only [OptimizedDataManager.delete_activity, hany2]
      simp

/-- C4, witness: deleting the present id "a1" succeeds, the survivor set is as
characterized, and a second deletion of "a1" fails with no side effects. -/
theorem C4_witness :
    (OptimizedDataManager.delete_activity
        [⟨"a1", some "Run", some 30, some "Low", 0, some "", some ""⟩] "a1").1 = true ∧
    (∀ x, x ∈ (OptimizedDataManager.delete_activity
        [⟨"a1", some "Run", some 30, some "Low", 0, some "", some ""⟩] "a1").2 ↔
      x ∈ [(⟨"a1", some "Run", some 30, some "Low", 0, some "", some ""⟩ : Activity)] ∧
        x.id ≠ "a1") ∧
    OptimizedDataManager.delete_activity
        (OptimizedDataManager.delete_activity
          [⟨"a1", some "Run", some 30, some "Low", 0, some "", some ""⟩] "a1").2 "a1" =
      (false, (OptimizedDataManager.delete_activity
        [⟨"a1", some "Run", some 30, some "Low", 0, some "", some ""⟩] "a1").2) :=
  (C4_delete_activity
      [⟨"a1", some "Run", some 30, some "Low", 0, some "", some ""⟩] "a1").2
    ⟨⟨"a1", some "Run", some 30, some "Low", 0, some "", some ""⟩, by decide, rfl⟩

/-! ### C5 -/

/-- C5, counterexample: the claim quantifies over `save_activities` including
`DataManager.save_activities` (data_manager.py, lines 101 to 120), which opens
the target file itself for writing — no temporary path, no atomic replace.  A
dump that fails midway leaves the target holding the partial bytes instead of
the original contents. -/
theorem C5_counterexample :
    (DataManager.save_activities ⟨[(activitiesPath, "OLD")], none⟩ [] (some "PART")).1 =
      false ∧
    fsGet (DataManager.save_activities
      ⟨[(activitiesPath, "OLD")], none⟩ [] (some "PART")).2.1.fs activitiesPath =
      some "PART" ∧
    fsGet ([(activitiesPath, "OLD")] : FS) activitiesPath = some "OLD" ∧
    (some "PART" : Option String) ≠ some "OLD" := by
  decide

/-- C5, amended: `OptimizedDataManager.save_activities` satisfies the claim — it
writes the serialized collection to the temporary path and atomically replaces
the target, so every observable file-system state holds either the old or the
complete new contents at the target; on a write failure it returns false,
removes the temporary file, leaves the target untouched, and updates the cache
only on success.  (`DataManager.save_activities` instead writes the target in
place.) -/
theorem C5_save_activities_atomic (s : FileStoreState) (df : List Activity) (p : String) :
    (OptimizedDataManager.save_activities s df none).1 = true ∧
    fsGet (OptimizedDataManager.save_activities s df none).2.1.fs activitiesPath =
      some (serializeActivities df) ∧
    (OptimizedDataManager.save_activities s df none).2.1.cache = some df ∧
    (∀ g ∈ (OptimizedDataManager.save_activities s df none).2.2,
      fsGet g activitiesPath = fsGet s.fs activitiesPath ∨
      fsGet g activitiesPath = some (serializeActivities df)) ∧
    (OptimizedDataManager.save_activities s df (some p)).1 = false ∧
    fsGet (OptimizedDataManager.save_activities s df (some p)).2.1.fs activitiesPath =
      fsGet s.fs activitiesPath ∧
    fsGet (OptimizedDataManager.save_activities s df (some p)).2.1.fs activitiesTmpPath =
      none ∧
    (OptimizedDataManager.save_activities s df (some p)).2.1.cache = s.cache ∧
    (∀ g ∈ (OptimizedDataManager.save_activities s df (some p)).2.2,
      fsGet g activitiesPath = fsGet s.fs activitiesPath) := by
  have hne : activitiesPath ≠ activitiesTmpPath := by decide
  simp only [OptimizedDataManager.save_activities]
  refine ⟨trivial, ?_, trivial, ?_, trivial, ?_, ?_, trivial, ?_⟩
  · exact fsGet_fsSet_self _ activitiesPath (serializeActivities df)
  · intro g hg
    rcases List.mem_cons.mp hg with rfl | hg
    · left
      exact fsGet_fsSet_ne s.fs activitiesTmpPath (serializeActivities df) activitiesPath hne
    · rcases List.mem_cons.mp hg with rfl | hg
      · right
        exact fsGet_fsSet_self _ activitiesPath (serializeActivities df)
      · cases hg
  · rw [fsGet_fsRemove_ne _ activitiesTmpPath activitiesPath hne]
    exact fsGet_fsSet_ne s.fs activitiesTmpPath p activitiesPath hne
  · exact fsGet_fsRemove_self _ activitiesTmpPath
  · intro g hg
    rcases List.mem_cons.mp hg with rfl | hg
    · exact fsGet_fsSet_ne s.fs activitiesTmpPath p activitiesPath hne
    · rcases List.mem_cons.mp hg with rfl | hg
      · rw [fsGet_fsRemove_ne _ activitiesTmpPath activitiesPath hne]
        exact fsGet_fsSet_ne s.fs activitiesTmpPath p activitiesPath hne
      · cases hg

/-- C5, witness: the amended theorem applied to a concrete state, collection and
failure bytes; the failing save leaves the old contents at the target. -/
theorem C5_witness :
    (OptimizedDataManager.save_activities ⟨[(activitiesPath, "OLD")], none⟩ []
      (some "PART")).1 = false ∧
    fsGet (OptimizedDataManager.save_activities ⟨[(activitiesPath, "OLD")], none⟩ []
      (some "PART")).2.1.fs activitiesPath =
      fsGet ([(activitiesPath, "OLD")] : FS) activitiesPath :=
  ⟨(C5_save_activities_atomic ⟨[(activitiesPath, "OLD")], none⟩ [] "PART").2.2.2.2.1,
   (C5_save_activities_atomic ⟨[(activitiesPath, "OLD")], none⟩ [] "PART").2.2.2.2.2.1⟩

/-! ### C6 -/

/-- C6: `update_activity` changes exactly the targeted record's mutable fields
(type, duration, intensity, date, description, adaptation), preserves its id —
and, relationally, its owner and creation time — and leaves every other record
unchanged; a missing id returns false and leaves the whole collection
unchanged.  Stated for both `DataManager.update_activity` and
`DatabaseManager.update_activity`; the decomposition `l1 ++ r :: l2` with `l1`
and `l2` returned verbatim is the frame condition. -/
theorem C6_update_activity_frame (store : List Activity) (aid : String) (d : ActivityData)
    (db : DBState) (uid adb : Nat) (t i : String) (dur dt : Int)
    (ht : d.type = some t) (hd : d.duration = some dur) (hi : d.intensity = some i)
    (hdt : d.date = some dt) :
    ((∀ a ∈ store, a.id ≠ aid) →
      DataManager.update_activity store aid d = (false, store)) ∧
    ((∃ a ∈ store, a.id = aid) →
      ∃ l1 r l2, DataManager.load_activities store = l1 ++ r :: l2 ∧ r.id = aid ∧
        (∀ y ∈ l1, y.id ≠ aid) ∧
        DataManager.update_activity store aid d =
          (true, l1 ++ { r with type := some t, duration := some dur, intensity := some i, date := dt, description := some (d.description.getD ""), adaptation := some (d.adaptation.getD "") } :: l2)) ∧
    ((∀ a ∈ db.activities, ¬(a.id = adb ∧ a.user_id = uid)) →
      DatabaseManager.update_activity db uid adb d = (false, db)) ∧
    ((∃ a ∈ db.activities, a.id = adb ∧ a.user_id = uid) →
      ∃ l1 r l2, db.activities = l1 ++ r :: l2 ∧ r.id = adb ∧ r.user_id = uid ∧
        (∀ y ∈ l1, ¬(y.id = adb ∧ y.user_id = uid)) ∧
        DatabaseManager.update_activity db uid adb d =
          (true, { db with activities := l1 ++ { r with type := t, duration := dur, intensity := i, date := dt, description := d.description.getD "", adaptation := d.adaptation.getD "" } :: l2 })) := by
  refine ⟨?_, ?_, ?_, ?_⟩
  · intro habs
    have hall : ((DataManager.load_activities store).all
        (fun a => decide (a.id ≠ aid))) = true := by
      rw [List.all_eq_true]
      intro x hx
      simp only [decide_eq_true_eq]
      exact habs x (mem_sortActivitiesDesc.mp hx)
    simp only [DataManager.update_activity, hall]
    simp
  · intro hex
    obtain ⟨x₀, hx₀, hid₀⟩ := hex
    have hex2 : ∃ x ∈ DataManager.load_activities store,
        (fun a => decide (a.id = aid)) x = true :=
      ⟨x₀, mem_sortActivitiesDesc.mpr hx₀, by simp [hid₀]⟩
    have hall : ((DataManager.load_activities store).all
        (fun a => decide (a.id ≠ aid))) = false := by
      rw [List.all_eq_false]
      obtain ⟨x, hx, hpx⟩ := hex2
      refine ⟨x, hx, ?_⟩
      simp only [decide_eq_true_eq] at hpx ⊢
      simp [hpx]
    obtain ⟨l1, r, l2, hdec, hpr, hl1, heq⟩ :=
      listUpdateFirst_decomp (DataManager.load_activities store)
        (fun a => decide (a.id = aid))
        (fun a => { a with type := some t, duration := some dur, intensity := some i, date := dt, description := some (d.description.getD ""), adaptation := some (d.adaptation.getD "") }) hex2
    refine ⟨l1, r, l2, hdec, by simpa using hpr, ?_, ?_⟩
    · intro y hy
      have := hl1 y hy
      simpa using this
    · rw [show DataManager.update_activity store aid d =
          (true, listUpdateFirst (DataManager.load_activities store) (fun a => decide (a.id = aid)) (fun a => { a with type := some t, duration := some dur, intensity := some i, date := dt, description := some (d.description.getD ""), adaptation := some (d.adaptation.getD "") })) from by
        simp only [DataManager.update_activity, hall, ht, hd, hi, hdt]
        simp]
      rw [heq]
  · intro habs
    have hany : (db.activities.any
        (fun a => decide (a.id = adb ∧ a.user_id = uid))) = false := by
      rw [List.any_eq_false]
      intro x hx
      simp only [decide_eq_true_eq]
      exact habs x hx
    simp only [DatabaseManager.update_activity, hany]
    simp
  · intro hex
    obtain ⟨x₀, hx₀, hid₀, hu₀⟩ := hex
    have hex2 : ∃ x ∈ db.activities,
        (fun a => decide (a.id = adb ∧ a.user_id = uid)) x = true :=
      ⟨x₀, hx₀, by simp [hid₀, hu₀]⟩
    have hany : (db.activities.any
        (fun a => decide (a.id = adb ∧ a.user_id = uid))) = true := by
      rw [List.any_eq_true]
      exact hex2
    obtain ⟨l1, r, l2, hdec, hpr, hl1, heq⟩ :=
      listUpdateFirst_decomp db.activities
        (fun a => decide (a.id = adb ∧ a.user_id = uid))
        (fun a => { a with type := t, duration := dur, intensity := i, date := dt, description := d.description.getD "", adaptation := d.adaptation.getD "" }) hex2
    have hpr2 : r.id = adb ∧ r.user_id = uid := by simpa using hpr
    refine ⟨l1, r, l2, hdec, hpr2.1, hpr2.2, ?_, ?_⟩
    · intro y hy
      have := hl1 y hy
      simpa using this
    · rw [show DatabaseManager.update_activity db uid adb d =
          (true, { db with activities := listUpdateFirst db.activities (fun a => decide (a.id = adb ∧ a.user_id = uid)) (fun a => { a with type := t, duration := dur, intensity := i, date := dt, description := d.description.getD "", adaptation := d.adaptation.getD "" }) }) from by
        simp only [DatabaseManager.update_activity, hany, ht, hd, hi, hdt]
        simp]
      rw [heq]

/-- C6, witness: the found-case clauses of the frame theorem at a concrete
one-record file store and a concrete one-row relational store. -/
theorem C6_witness :
    (∃ l1 r l2,
      DataManager.load_activities
        [⟨"a1", some "Run", some 30, some "Low", 0, some "", some ""⟩] = l1 ++ r :: l2 ∧
      r.id = "a1" ∧ (∀ y ∈ l1, y.id ≠ "a1") ∧
      DataManager.update_activity
        [⟨"a1", some "Run", some 30, some "Low", 0, some "", some ""⟩] "a1"
        ⟨some "Yoga", some 45, some "High", some 9, some "d", some "Rec"⟩ =
        (true, l1 ++ { r with type := some "Yoga", duration := some 45, intensity := some "High", date := 9, description := some "d", adaptation := some "Rec" } :: l2)) ∧
    (∃ l1 r l2,
      (⟨[], [⟨1, 7, "Run", 30, "Low", 0, "", ""⟩], [], [], 1⟩ : DBState).activities =
        l1 ++ r :: l2 ∧
      r.id = 1 ∧ r.user_id = 7 ∧ (∀ y ∈ l1, ¬(y.id = 1 ∧ y.user_id = 7)) ∧
      DatabaseManager.update_activity ⟨[], [⟨1, 7, "Run", 30, "Low", 0, "", ""⟩], [], [], 1⟩
        7 1 ⟨some "Yoga", some 45, some "High", some 9, some "d", some "Rec"⟩ =
        (true, { (⟨[], [⟨1, 7, "Run", 30, "Low", 0, "", ""⟩], [], [], 1⟩ : DBState) with activities := l1 ++ { r with type := "Yoga", duration := 45, intensity := "High", date := 9, description := "d", adaptation := "Rec" } :: l2 })) :=
  ⟨(C6_update_activity_frame
      [⟨"a1", some "Run", some 30, some "Low", 0, some "", some ""⟩] "a1"
      ⟨some "Yoga", some 45, some "High", some 9, some "d", some "Rec"⟩
      ⟨[], [⟨1, 7, "Run", 30, "Low", 0, "", ""⟩], [], [], 1⟩ 7 1 "Yoga" "High" 45 9
      rfl rfl rfl rfl).2.1
      ⟨⟨"a1", some "Run", some 30, some "Low", 0, some "", some ""⟩, by decide, rfl⟩,
   (C6_update_activity_frame
      [⟨"a1", some "Run", some 30, some "Low", 0, some "", some ""⟩] "a1"
      ⟨some "Yoga", some 45, some "High", some 9, some "d", some "Rec"⟩
      ⟨[], [⟨1, 7, "Run", 30, "Low", 0, "", ""⟩], [], [], 1⟩ 7 1 "Yoga" "High" 45 9
      rfl rfl rfl rfl).2.2.2
      ⟨⟨1, 7, "Run", 30, "Low", 0, "", ""⟩, by decide, rfl, rfl⟩⟩

/-! ### C7 -/

/-- C7, counterexample: `DatabaseManager.update_weight_entry` and
`DatabaseManager.delete_weight_entry` (database.py, lines 343 to 382) take no
acting user and filter by entry id only.  With users 1 and 2 present and entry
7 owned by user 2, both calls — issued from any session, such as user 1's —
succeed and modify or remove user 2's entry, instead of failing and leaving it
unchanged. -/
theorem C7_counterexample :
    (DatabaseManager.update_weight_entry
      ⟨[⟨1, "alice", "a@x", StoredCredential.bcryptHash "s" "pw"⟩,
        ⟨2, "bob", "b@x", StoredCredential.bcryptHash "s" "pw"⟩], [],
        [⟨7, 2, 71, 0⟩], [], 3⟩ 7 70 5).1 = true ∧
    (DatabaseManager.update_weight_entry
      ⟨[⟨1, "alice", "a@x", StoredCredential.bcryptHash "s" "pw"⟩,
        ⟨2, "bob", "b@x", StoredCredential.bcryptHash "s" "pw"⟩], [],
        [⟨7, 2, 71, 0⟩], [], 3⟩ 7 70 5).2.weight_entries = [⟨7, 2, 70, 5⟩] ∧
    (DatabaseManager.delete_weight_entry
      ⟨[⟨1, "alice", "a@x", StoredCredential.bcryptHash "s" "pw"⟩,
        ⟨2, "bob", "b@x", StoredCredential.bcryptHash "s" "pw"⟩], [],
        [⟨7, 2, 71, 0⟩], [], 3⟩ 7).1 = true ∧
    (DatabaseManager.delete_weight_entry
      ⟨[⟨1, "alice", "a@x", StoredCredential.bcryptHash "s" "pw"⟩,
        ⟨2, "bob", "b@x", StoredCredential.bcryptHash "s" "pw"⟩], [],
        [⟨7, 2, 71, 0⟩], [], 3⟩ 7).2.weight_entries = [] := by
  decide

/-- C7, amended: only `OptimizedDatabaseManager.delete_weight_entry` follows the
ownership-scoping discipline: for a weight entry owned by B and any distinct
user A, deleting it on behalf of A returns false and leaves the store
unchanged.  (`database.py` scopes neither weight operation, and the optimized
store has no `update_weight_entry` at all.) -/
theorem C7_delete_weight_scoped (db : DBState) (A : Nat) (e : DBWeightEntry)
    (hnd : (db.weight_entries.map DBWeightEntry.id).Nodup)
    (he : e ∈ db.weight_entries) (hA : e.user_id ≠ A) :
    OptimizedDatabaseManager.delete_weight_entry db A e.id = (false, db) := by
  have hany : (db.weight_entries.any
      (fun x => decide (x.id = e.id ∧ x.user_id = A))) = false := by
    rw [List.any_eq_false]
    intro x hx
    simp only [decide_eq_true_eq]
    rintro ⟨hid, hu⟩
    have hxe : x = e := List.inj_on_of_nodup_map hnd hx he hid
    exact hA (hxe ▸ hu)
  simp only [OptimizedDatabaseManager.delete_weight_entry, hany]
  simp

/-- C7, witness: user 1 cannot delete entry 7, which belongs to user 2. -/
theorem C7_witness :
    (⟨7, 2, 71, 0⟩ : DBWeightEntry).user_id ≠ 1 ∧
    OptimizedDatabaseManager.delete_weight_entry
      ⟨[⟨1, "alice", "a@x", StoredCredential.bcryptHash "s" "pw"⟩,
        ⟨2, "bob", "b@x", StoredCredential.bcryptHash "s" "pw"⟩], [],
        [⟨7, 2, 71, 0⟩], [], 3⟩ 1 (⟨7, 2, 71, 0⟩ : DBWeightEntry).id =
      (false, ⟨[⟨1, "alice", "a@x", StoredCredential.bcryptHash "s" "pw"⟩,
        ⟨2, "bob", "b@x", StoredCredential.bcryptHash "s" "pw"⟩], [],
        [⟨7, 2, 71, 0⟩], [], 3⟩) :=
  ⟨by decide,
   C7_delete_weight_scoped
     ⟨[⟨1, "alice", "a@x", StoredCredential.bcryptHash "s" "pw"⟩,
       ⟨2, "bob", "b@x", StoredCredential.bcryptHash "s" "pw"⟩], [],
       [⟨7, 2, 71, 0⟩], [], 3⟩ 1 ⟨7, 2, 71, 0⟩ (by decide) (by decide) (by decide)⟩

/-! ### C8 -/

theorem mem_insertPair (fr : List (Nat × Nat)) (pr x : Nat × Nat) :
    x ∈ insertPair fr pr ↔ x ∈ fr ∨ x = pr := by
  by_cases h : pr ∈ fr
  · simp only [insertPair, if_pos h]
    constructor
    · exact Or.inl
    · rintro (hx | rfl)
      · exact hx
      · exact h
  · simp [insertPair, if_neg h, List.mem_append]

/-- C8, counterexample: `DatabaseManager.add_friend` (database.py, lines 192 to
213) has NO self-friendship check: a user adding their own username succeeds
and records the (1, 1) relation, instead of failing. -/
theorem C8_counterexample :
    (DatabaseManager.add_friend
      ⟨[⟨1, "alice", "a@x", StoredCredential.bcryptHash "s" "pw"⟩], [], [], [], 2⟩
      1 "alice").1 = true ∧
    (DatabaseManager.add_friend
      ⟨[⟨1, "alice", "a@x", StoredCredential.bcryptHash "s" "pw"⟩], [], [], [], 2⟩
      1 "alice").2.1 = "Friend added successfully" ∧
    (DatabaseManager.add_friend
      ⟨[⟨1, "alice", "a@x", StoredCredential.bcryptHash "s" "pw"⟩], [], [], [], 2⟩
      1 "alice").2.2.friendships = [(1, 1)] := by
  decide

/-- C8, amended: `OptimizedDatabaseManager.add_friend` satisfies the claim — it
fails when the username is unknown, on self-friendship, and when the two users
are already friends; on success the relation is established symmetrically, so
`get_user_friends` of either user contains the other.
(`DatabaseManager.add_friend` lacks the self-friendship check.) -/
theorem C8_add_friend (db : DBState) (uid : Nat) (uname : String) (friendU user : DBUser) :
    ((∀ u ∈ db.users, u.username ≠ uname) →
      OptimizedDatabaseManager.add_friend db uid uname = (false, "User not found", db)) ∧
    ((db.users.map DBUser.username).Nodup → friendU ∈ db.users →
      friendU.username = uname → friendU.id = uid →
      OptimizedDatabaseManager.add_friend db uid uname =
        (false, "Cannot add yourself as friend", db)) ∧
    ((db.users.map DBUser.username).Nodup → (db.users.map DBUser.id).Nodup →
      friendU ∈ db.users → friendU.username = uname → friendU.id ≠ uid →
      user ∈ db.users → user.id = uid → (uid, friendU.id) ∈ db.friendships →
      OptimizedDatabaseManager.add_friend db uid uname = (false, "Already friends", db)) ∧
    ((db.users.map DBUser.username).Nodup → (db.users.map DBUser.id).Nodup →
      friendU ∈ db.users → friendU.username = uname → friendU.id ≠ uid →
      user ∈ db.users → user.id = uid → (uid, friendU.id) ∉ db.friendships →
      (OptimizedDatabaseManager.add_friend db uid uname).1 = true ∧
      friendU ∈ OptimizedDatabaseManager.get_user_friends
        (OptimizedDatabaseManager.add_friend db uid uname).2.2 uid ∧
      user ∈ OptimizedDatabaseManager.get_user_friends
        (OptimizedDatabaseManager.add_friend db uid uname).2.2 friendU.id) := by
  refine ⟨?_, ?_, ?_, ?_⟩
  · intro habs
    have hnone : db.users.find? (fun u => decide (u.username = uname)) = none := by
      rw [List.find?_eq_none]
      intro x hx
      simp [habs x hx]
    simp [OptimizedDatabaseManager.add_friend, hnone]
  · intro hnd hfu hfname hfid
    have hfind : db.users.find? (fun u => decide (u.username = uname)) = some friendU :=
      find?_key_eq db.users DBUser.username friendU uname hfu hfname hnd
    simp [OptimizedDatabaseManager.add_friend, hfind, hfid]
  · intro hnd hndid hfu hfname hne huser huid hmem
    have hfind : db.users.find? (fun u => decide (u.username = uname)) = some friendU :=
      find?_key_eq db.users DBUser.username friendU uname hfu hfname hnd
    have hfindU : db.users.find? (fun u => decide (u.id = uid)) = some user :=
      find?_key_eq db.users DBUser.id user uid huser huid hndid
    simp [OptimizedDatabaseManager.add_friend, hfind, hfindU, hne, huid, hmem]
  · intro hnd hndid hfu hfname hne huser huid hmem
    have hfind : db.users.find? (fun u => decide (u.username = uname)) = some friendU :=
      find?_key_eq db.users DBUser.username friendU uname hfu hfname hnd
    have hfindU : db.users.find? (fun u => decide (u.id = uid)) = some user :=
      find?_key_eq db.users DBUser.id user uid huser huid hndid
    have hres : OptimizedDatabaseManager.add_friend db uid uname =
        (true, "Friend added successfully",
          { db with friendships := insertPair (insertPair db.friendships
            (uid, friendU.id)) (friendU.id, uid) }) := by
      simp [OptimizedDatabaseManager.add_friend, hfind, hfindU, hne, huid, hmem]
    have h1 : (uid, friendU.id) ∈ insertPair (insertPair db.friendships
        (uid, friendU.id)) (friendU.id, uid) :=
      (mem_insertPair _ _ _).mpr
        (Or.inl ((mem_insertPair _ _ _).mpr (Or.inr rfl)))
    have h2 : (friendU.id, uid) ∈ insertPair (insertPair db.friendships
        (uid, friendU.id)) (friendU.id, uid) :=
      (mem_insertPair _ _ _).mpr (Or.inr rfl)
    refine ⟨by rw [hres], ?_, ?_⟩
    · rw [hres]
      have hfind2 : ({ db with friendships := insertPair (insertPair db.friendships (uid, friendU.id)) (friendU.id, uid) } : DBState).users.find? (fun u => decide (u.id = uid)) = some user := hfindU
      simp only [OptimizedDatabaseManager.get_user_friends, hfind2]
      rw [List.mem_filter]
      exact ⟨hfu, by simp [huid, h1]⟩
    · rw [hres]
      have hfind3 : ({ db with friendships := insertPair (insertPair db.friendships (uid, friendU.id)) (friendU.id, uid) } : DBState).users.find? (fun u => decide (u.id = friendU.id)) = some friendU :=
        find?_key_eq db.users DBUser.id friendU friendU.id hfu rfl hndid
      simp only [OptimizedDatabaseManager.get_user_friends, hfind3]
      rw [List.mem_filter]
      exact ⟨huser, by simp [huid, h2]⟩

/-- C8, witness: with users alice (id 1) and bob (id 2), alice adds bob;
both friends lists now contain the other user. -/
theorem C8_witness :
    (OptimizedDatabaseManager.add_friend
      ⟨[⟨1, "alice", "a@x", StoredCredential.bcryptHash "s" "pw"⟩,
        ⟨2, "bob", "b@x", StoredCredential.bcryptHash "s" "pw"⟩], [], [], [], 3⟩
      1 "bob").1 = true ∧
    (⟨2, "bob", "b@x", StoredCredential.bcryptHash "s" "pw"⟩ : DBUser) ∈
      OptimizedDatabaseManager.get_user_friends
        (OptimizedDatabaseManager.add_friend
          ⟨[⟨1, "alice", "a@x", StoredCredential.bcryptHash "s" "pw"⟩,
            ⟨2, "bob", "b@x", StoredCredential.bcryptHash "s" "pw"⟩], [], [], [], 3⟩
          1 "bob").2.2 1 ∧
    (⟨1, "alice", "a@x", StoredCredential.bcryptHash "s" "pw"⟩ : DBUser) ∈
      OptimizedDatabaseManager.get_user_friends
        (OptimizedDatabaseManager.add_friend
          ⟨[⟨1, "alice", "a@x", StoredCredential.bcryptHash "s" "pw"⟩,
            ⟨2, "bob", "b@x", StoredCredential.bcryptHash "s" "pw"⟩], [], [], [], 3⟩
          1 "bob").2.2 (⟨2, "bob", "b@x", StoredCredential.bcryptHash "s" "pw"⟩ :
            DBUser).id :=
  (C8_add_friend
    ⟨[⟨1, "alice", "a@x", StoredCredential.bcryptHash "s" "pw"⟩,
      ⟨2, "bob", "b@x", StoredCredential.bcryptHash "s" "pw"⟩], [], [], [], 3⟩
    1 "bob" ⟨2, "bob", "b@x", StoredCredential.bcryptHash "s" "pw"⟩
    ⟨1, "alice", "a@x", StoredCredential.bcryptHash "s" "pw"⟩).2.2.2
    (by decide) (by decide) (by decide) rfl (by decide) (by decide) rfl (by decide)

/-! ### C9 -/

/-- C9, counterexample: `DatabaseManager.create_user` (database.py, lines 115 to
140) enforces no username length bounds: a two-character username is accepted
and a row is created, although the claim requires length bounds to be
enforced. -/
theorem C9_counterexample :
    ("ab".length < 3) ∧
    (DatabaseManager.create_user ⟨[], [], [], [], 1⟩ "ab" "ab@x.com" "secret1" "s1").1 =
      some 1 ∧
    ((DatabaseManager.create_user ⟨[], [], [], [], 1⟩ "ab" "ab@x.com" "secret1"
      "s1").2.2.users.length = 1) := by
  decide

/-- C9, amended: `OptimizedDatabaseManager.create_user` satisfies the claim — it
enforces the username length bounds `[3, 50]`, rejects any username or email
already present without creating a row, answers a duplicate username after a
successful creation with the message "Username already exists" and no new row,
and stores a salted one-way bcrypt hash, never the plaintext password.
(`DatabaseManager.create_user` checks no length bounds.) -/
theorem C9_create_user (db : DBState) (u e p s p2 s2 : String) (uid : Nat) (m : String)
    (db2 : DBState) :
    (u.length < 3 →
      OptimizedDatabaseManager.create_user db u e p s =
        (none, "Username must be at least 3 characters", db)) ∧
    (50 < u.length →
      OptimizedDatabaseManager.create_user db u e p s =
        (none, "Username must be less than 50 characters", db)) ∧
    ((∃ v ∈ db.users, v.username = u ∨ v.email = e) →
      (OptimizedDatabaseManager.create_user db u e p s).1 = none ∧
      (OptimizedDatabaseManager.create_user db u e p s).2.2 = db) ∧
    (OptimizedDatabaseManager.create_user db u e p s = (some uid, m, db2) →
      OptimizedDatabaseManager.create_user db2 u e p2 s2 =
        (none, "Username already exists", db2)) ∧
    (OptimizedDatabaseManager.create_user db u e p s = (some uid, m, db2) →
      ∃ newU, db2.users = db.users ++ [newU] ∧ newU.username = u ∧ newU.email = e ∧
        newU.password_hash = StoredCredential.bcryptHash s p ∧
        ∀ q, newU.password_hash ≠ StoredCredential.plaintext q) := by
  have main : OptimizedDatabaseManager.create_user db u e p s = (some uid, m, db2) →
      ¬(u.length < 3) ∧ ¬(50 < u.length) ∧
      db.users.find? (fun x => decide (x.username = u) || decide (x.email = e)) = none ∧
      db2 = { db with users := db.users ++ [⟨db.next_user_id, u, e, StoredCredential.bcryptHash s p⟩], next_user_id := db.next_user_id + 1 } := by
    intro hsucc
    by_cases h3 : u.length < 3
    · simp [OptimizedDatabaseManager.create_user, h3] at hsucc
    by_cases h50 : 50 < u.length
    · simp [OptimizedDatabaseManager.create_user, h3, h50] at hsucc
    cases hfind : db.users.find?
        (fun x => decide (x.username = u) || decide (x.email = e)) with
    | some w =>
        by_cases hwu : w.username = u
        · simp [OptimizedDatabaseManager.create_user, h3, h50, hfind, hwu] at hsucc
        · simp [OptimizedDatabaseManager.create_user, h3, h50, hfind, hwu] at hsucc
    | none =>
        by_cases hp6 : p.length < 6
        · simp [OptimizedDatabaseManager.create_user, h3, h50, hfind, hp6] at hsucc
        · simp [OptimizedDatabaseManager.create_user, h3, h50, hfind, hp6,
            Prod.ext_iff] at hsucc
          exact ⟨h3, h50, rfl, hsucc.2.2.symm⟩
  refine ⟨?_, ?_, ?_, ?_, ?_⟩
  · intro h
    simp [OptimizedDatabaseManager.create_user, h]
  · intro h
    have h3 : ¬(u.length < 3) := by omega
    simp [OptimizedDatabaseManager.create_user, h3, h]
  · rintro ⟨v, hv, hor⟩
    by_cases h3 : u.length < 3
    · simp [OptimizedDatabaseManager.create_user, h3]
    by_cases h50 : 50 < u.length
    · simp [OptimizedDatabaseManager.create_user, h3, h50]
    have hsome : (db.users.find?
        (fun x => decide (x.username = u) || decide (x.email = e))).isSome = true := by
      rw [List.find?_isSome]
      refine ⟨v, hv, ?_⟩
      rcases hor with h | h <;> simp [h]
    obtain ⟨w, hw⟩ := Option.isSome_iff_exists.mp hsome
    by_cases hwu : w.username = u
    · simp [OptimizedDatabaseManager.create_user, h3, h50, hw, hwu]
    · simp [OptimizedDatabaseManager.create_user, h3, h50, hw, hwu]
  · intro hsucc
    obtain ⟨h3, h50, hfind, hdb2⟩ := main hsucc
    subst hdb2
    have hfind2 : ((db.users ++
        [(⟨db.next_user_id, u, e, StoredCredential.bcryptHash s p⟩ : DBUser)]).find?
        (fun x => decide (x.username = u) || decide (x.email = e))) =
        some ⟨db.next_user_id, u, e, StoredCredential.bcryptHash s p⟩ := by
      rw [List.find?_append, hfind]
      simp [List.find?]
    simp [OptimizedDatabaseManager.create_user, h3, h50, hfind2]
  · intro hsucc
    obtain ⟨h3, h50, hfind, hdb2⟩ := main hsucc
    subst hdb2
    exact ⟨⟨db.next_user_id, u, e, StoredCredential.bcryptHash s p⟩, rfl, rfl, rfl, rfl,
      fun q h => StoredCredential.noConfusion h⟩

/-- C9, witness: after `create_user("bob", "bob@x.com", "secret1")` succeeds, a
second creation attempt with the same username fails with "Username already
exists" and leaves the user table unchanged. -/
theorem C9_witness :
    OptimizedDatabaseManager.create_user
      ⟨[⟨1, "bob", "bob@x.com", StoredCredential.bcryptHash "s1" "secret1"⟩], [], [], [], 2⟩
      "bob" "bob@x.com" "secret2" "s2" =
      (none, "Username already exists",
        ⟨[⟨1, "bob", "bob@x.com", StoredCredential.bcryptHash "s1" "secret1"⟩],
          [], [], [], 2⟩) :=
  (C9_create_user ⟨[], [], [], [], 1⟩ "bob" "bob@x.com" "secret1" "s1" "secret2" "s2" 1
    "User created successfully"
    ⟨[⟨1, "bob", "bob@x.com", StoredCredential.bcryptHash "s1" "secret1"⟩],
      [], [], [], 2⟩).2.2.2.1 (by decide)

/-! ### C10 -/

/-- C10: for every user and every period — including "All time" with no limit
argument supplied — `get_user_activities` returns at most 1000 activities, and
the rows it omits are never newer than any row it returns: the newest-first
ordering is truncated at 1000, silently dropping the oldest ones. -/
theorem C10_get_user_activities_capped (db : DBState) (uid : Nat) (period : String)
    (now : Int) :
    (DatabaseManager.get_user_activities db uid period now).length ≤ 1000 ∧
    (OptimizedDatabaseManager.get_user_activities db uid period now none).length ≤ 1000 ∧
    (∀ a b, a ∈ DatabaseManager.get_user_activities db uid period now →
      b ∈ userPeriodActivities db uid period now →
      b ∉ DatabaseManager.get_user_activities db uid period now →
      b.date ≤ a.date) := by
  refine ⟨?_, ?_, ?_⟩
  · exact List.length_take_le _ _
  · exact List.length_take_le _ _
  · intro a b ha hb hnb
    have hbs : b ∈ sortDBActivitiesDesc (userPeriodActivities db uid period now) :=
      mem_sortDBActivitiesDesc.mpr hb
    rw [← List.take_append_drop 1000
      (sortDBActivitiesDesc (userPeriodActivities db uid period now))] at hbs
    have hbd : b ∈ (sortDBActivitiesDesc (userPeriodActivities db uid period now)).drop
        1000 := by
      rcases List.mem_append.mp hbs with h | h
      · exact absurd h hnb
      · exact h
    have hsorted : List.Pairwise DBActivity.dateGe
        (sortDBActivitiesDesc (userPeriodActivities db uid period now)) :=
      List.sorted_insertionSort DBActivity.dateGe (userPeriodActivities db uid period now)
    exact hsorted.rel_of_mem_take_of_mem_drop ha hbd

/-- A user with 1001 stored activities, dated `1000 - k` minutes for
`k = 0, ..., 1000` (newest first). -/
def bigDB : DBState :=
  ⟨[], (List.range 1001).map (fun k => ⟨k, 1, "", 30, "", 1000 - (k : Int), "", ""⟩),
    [], [], 1⟩

set_option maxRecDepth 100000 in
/-- C10, witness: with 1001 stored activities and period "All time", the newest
record is returned, the oldest record matches the query but is not returned,
and the theorem yields that every omitted record is at least as old. -/
theorem C10_witness :
    (⟨0, 1, "", 30, "", 1000, "", ""⟩ : DBActivity) ∈
      DatabaseManager.get_user_activities bigDB 1 "All time" 0 ∧
    (⟨1000, 1, "", 30, "", 0, "", ""⟩ : DBActivity) ∈
      userPeriodActivities bigDB 1 "All time" 0 ∧
    (⟨1000, 1, "", 30, "", 0, "", ""⟩ : DBActivity) ∉
      DatabaseManager.get_user_activities bigDB 1 "All time" 0 ∧
    (⟨1000, 1, "", 30, "", 0, "", ""⟩ : DBActivity).date ≤
      (⟨0, 1, "", 30, "", 1000, "", ""⟩ : DBActivity).date := by
  have h1 : (⟨0, 1, "", 30, "", 1000, "", ""⟩ : DBActivity) ∈
      DatabaseManager.get_user_activities bigDB 1 "All time" 0 := by decide
  have h2 : (⟨1000, 1, "", 30, "", 0, "", ""⟩ : DBActivity) ∈
      userPeriodActivities bigDB 1 "All time" 0 := by decide
  have h3 : (⟨1000, 1, "", 30, "", 0, "", ""⟩ : DBActivity) ∉
      DatabaseManager.get_user_activities bigDB 1 "All time" 0 := by decide
  exact ⟨h1, h2, h3,
    (C10_get_user_activities_capped bigDB 1 "All time" 0).2.2 _ _ h1 h2 h3⟩
